import Mathlib

/-!
Verification of the Trip-Scraper engine specification.

This development gives a shallow embedding, in Lean 4, of the parts of the
Trip-Scraper repository (an Express server in `dump/dump.ts` plus the
telemetry codec in `src/utils/collectPayload.js`) that the specification's
claims are about, and settles each claim against that embedding.

Conventions used throughout:
* JavaScript numbers that stay small non-negative integers are modelled as
  `Nat`; quantities that can go negative in the source (chunk limits,
  timestamps relative to `sendTs`) are modelled as `Int`.
* JavaScript's `undefined` is modelled as `Option.none`; code that would
  throw a `TypeError` is modelled with `Except`.
* `while` loops are modelled by fuel-indexed recursion; every fuel argument
  passed by a caller strictly exceeds the trip count of the corresponding
  JavaScript loop, so the embedded function computes exactly what the loop
  computes.
* External collaborators (the HTTP transport, `zlib`, the signing oracles,
  `JSON.parse`) are kept abstract: responses are modelled post-decompression
  and the outcome of `JSON.parse` is an explicit `Option Json` input.
-/

namespace TripScraper

/-! Small string utilities: (JavaScript string-method semantics)

The handlers use `String.prototype` methods (`split`, `trim`, `startsWith`,
`includes`, `replace` with a string pattern, `toUpperCase`, `toLowerCase`).
They are modelled here over `List Char` with `String` wrappers so that every
predicate is an executable `Bool`.
-/

/-- JavaScript whitespace for `trim` / `\s` (the characters that occur in the
modelled flows). -/
def isJsWs (c : Char) : Bool :=
  c = ' ' || c = '\t' || c = '\n' || c = '\r' || c = '\x0b' || c = '\x0c'

/-- Test whether `pat` is a prefix of `s`. -/
def listIsPrefix : List Char → List Char → Bool
  | [], _ => true
  | _ :: _, [] => false
  | p :: ps, c :: cs => p = c && listIsPrefix ps cs

/-- JavaScript `s.includes(pat)` (substring containment). -/
def listContains (pat : List Char) : List Char → Bool
  | [] => listIsPrefix pat []
  | c :: cs => listIsPrefix pat (c :: cs) || listContains pat cs

/-- JavaScript `s.replace(pat, '')` with a *string* pattern: remove the first
occurrence of `pat` only. -/
def removeFirstOcc (pat : List Char) : List Char → List Char
  | [] => []
  | c :: cs =>
    if listIsPrefix pat (c :: cs) then (c :: cs).drop pat.length
    else c :: removeFirstOcc pat cs

/-- JavaScript `s.split(sep)` for a single-character separator. -/
def splitOnChar (sep : Char) (s : List Char) : List (List Char) :=
  match s with
  | [] => [[]]
  | c :: cs =>
    let rest := splitOnChar sep cs
    if c = sep then [] :: rest
    else match rest with
      | [] => [[c]]
      | r :: rs => (c :: r) :: rs

/-- JavaScript `s.trim()`. -/
def listTrim (s : List Char) : List Char :=
  ((s.dropWhile isJsWs).reverse.dropWhile isJsWs).reverse

def strContains (s pat : String) : Bool := listContains pat.data s.data

def strStartsWith (s pat : String) : Bool := listIsPrefix pat.data s.data

def strTrim (s : String) : String := ⟨listTrim s.data⟩

def strRemoveFirst (s pat : String) : String := ⟨removeFirstOcc pat.data s.data⟩

def strSplitNl (s : String) : List String := (splitOnChar '\n' s.data).map (⟨·⟩)

/-- JavaScript `s.toUpperCase()` restricted to ASCII (the inputs are IATA
city/airport codes and region codes). -/
def strUpper (s : String) : String := ⟨s.data.map Char.toUpper⟩

/-- JavaScript `s.toLowerCase()` restricted to ASCII. -/
def strLower (s : String) : String := ⟨s.data.map Char.toLower⟩

/-- JavaScript `String(n).padStart(w, '0')` for a natural number. -/
def padStart (w : Nat) (n : Nat) : String :=
  let d := toString n
  ⟨List.replicate (w - d.length) '0' ++ d.data⟩

/-- JavaScript `s.replace(pat, rep)` with a *string* pattern: replace the
first occurrence of `pat` only. -/
def replaceFirstOcc (pat rep : List Char) : List Char → List Char
  | [] => []
  | c :: cs =>
    if listIsPrefix pat (c :: cs) then rep ++ (c :: cs).drop pat.length
    else c :: replaceFirstOcc pat rep cs

/-- JavaScript `s.replace(/pat/g, rep)` for a plain (non-empty) pattern:
replace every non-overlapping occurrence, left to right. -/
def replaceAllOcc (pat rep : List Char) (s : List Char) : List Char :=
  match s with
  | [] => []
  | c :: cs =>
    if listIsPrefix pat (c :: cs) ∧ 0 < pat.length then
      rep ++ replaceAllOcc pat rep (cs.drop (pat.length - 1))
    else c :: replaceAllOcc pat rep cs
termination_by s.length
decreasing_by
  all_goals simp only [List.length_drop, List.length_cons]
  all_goals omega

def strReplaceFirst (s pat rep : String) : String :=
  ⟨replaceFirstOcc pat.data rep.data s.data⟩

def strReplaceAll (s pat rep : String) : String :=
  ⟨replaceAllOcc pat.data rep.data s.data⟩

def strSplitChar (sep : Char) (s : String) : List String :=
  (splitOnChar sep s.data).map (⟨·⟩)

/-- Hexadecimal digit value, if any. -/
def hexVal (c : Char) : Option Nat :=
  if '0' ≤ c ∧ c ≤ '9' then some (c.toNat - 48)
  else if 'a' ≤ c ∧ c ≤ 'f' then some (c.toNat - 87)
  else if 'A' ≤ c ∧ c ≤ 'F' then some (c.toNat - 55)
  else none

/-- Lenient percent-decoding as done by `URLSearchParams`: `+` becomes a
space, well-formed `%XX` becomes the byte `XX`, malformed escapes are kept
verbatim.  (Re-assembly of multi-byte UTF-8 sequences is not modelled; no
modelled input uses them.) -/
def percentDecodeL : List Char → List Char
  | [] => []
  | '%' :: a :: b :: rest =>
    match hexVal a, hexVal b with
    | some ha, some hb => Char.ofNat (16 * ha + hb) :: percentDecodeL rest
    | _, _ => '%' :: percentDecodeL (a :: b :: rest)
  | '+' :: rest => ' ' :: percentDecodeL rest
  | c :: rest => c :: percentDecodeL rest

/-- Strict percent-decoding as done by `decodeURIComponent`: a malformed
escape throws (`none`). -/
def percentDecodeS : List Char → Option (List Char)
  | [] => some []
  | '%' :: a :: b :: rest =>
    match hexVal a, hexVal b with
    | some ha, some hb => (percentDecodeS rest).map (Char.ofNat (16 * ha + hb) :: ·)
    | _, _ => none
  | '%' :: _ => none
  | c :: rest => (percentDecodeS rest).map (c :: ·)

/-- JavaScript `parseInt(s, 10)`: skip leading whitespace, optional sign,
then decimal digits; `none` models `NaN`. -/
def parseIntDigits (acc : Int) : List Char → Int
  | [] => acc
  | c :: cs =>
    if '0' ≤ c ∧ c ≤ '9' then parseIntDigits (acc * 10 + (c.toNat - 48)) cs
    else acc

def parseIntJs (s : String) : Option Int :=
  let t := s.data.dropWhile isJsWs
  match t with
  | '-' :: d :: ds =>
    if '0' ≤ d ∧ d ≤ '9' then some (-(parseIntDigits 0 (d :: ds))) else none
  | '+' :: d :: ds =>
    if '0' ≤ d ∧ d ≤ '9' then some (parseIntDigits 0 (d :: ds)) else none
  | d :: ds =>
    if '0' ≤ d ∧ d ≤ '9' then some (parseIntDigits 0 (d :: ds)) else none
  | [] => none

/-- Split a character list at the first occurrence of `pat`, returning the
parts before and after it; `none` when `pat` does not occur. -/
def splitFirstOn (pat : List Char) (s : List Char) : Option (List Char × List Char) :=
  match s with
  | [] => if pat = [] then some ([], []) else none
  | c :: cs =>
    if listIsPrefix pat (c :: cs) then some ([], (c :: cs).drop pat.length)
    else match splitFirstOn pat cs with
      | some (pre, post) => some (c :: pre, post)
      | none => none

/-! Telemetry codec: — embedding of `src/utils/collectPayload.js`

`encodePayload` serializes an object to JSON, decomposes the string into its
UTF-8 bytes (`unescape(encodeURIComponent(.))`), LZ-compresses the bytes and
packs the emitted byte stream through a 6-bit packer over a 64-character
alphabet.  The JavaScript interleaves compression and packing through the
inner function `encodeByte`; since the packer state depends only on the
sequence of bytes handed to `encodeByte`, the embedding stages the
computation: `compressBytes` produces that byte sequence in emission order
(marker, then loop emissions, then the final literal flush) and `pack6`
folds the packer over it, followed by the same final partial-bit flush.
-/

namespace Codec

/-- The 64-symbol output alphabet `t` of `collectPayload.js`. -/
def alphabet : String :=
  "ABCDEFGHIJKLMNOPQRSTUVWXYZabcdefghijklmnopqrstuvwxyz0123456789-_"

/-- State of the 6-bit packer: `l` and `c` are the accumulator variables of
the JavaScript, `out` the emitted alphabet indices (`writeChar` arguments). -/
structure PackState where
  l : Nat
  c : Nat
  out : List Nat
  deriving Repr

/-- Function `encodeByte(e)` of the source: push one byte into the 6-bit packer. -/
def packByte (st : PackState) (e : Nat) : PackState :=
  let t := st.l <<< (6 - st.c)
  let l := e &&& 255
  let c := st.c + 2
  let t := t ||| (l >>> c)
  let out := st.out ++ [t &&& 63]
  if c ≥ 6 then
    { l := l, c := c - 6, out := out ++ [(l >>> (c - 6)) &&& 63] }
  else
    { l := l, c := c, out := out }

/-- The final partial-bit flush
(`2 == c ? writeChar(l << 4 & 63) : 4 == c && writeChar(l << 2 & 63)`). -/
def packFinalize (st : PackState) : List Nat :=
  if st.c = 2 then st.out ++ [(st.l <<< 4) &&& 63]
  else if st.c = 4 then st.out ++ [(st.l <<< 2) &&& 63]
  else st.out

/-- Feed a byte sequence through the packer and flush. -/
def pack6 (bytes : List Nat) : List Nat :=
  packFinalize (bytes.foldl packByte ⟨0, 0, []⟩)

/-- Map packed 6-bit indices to the output alphabet (`writeChar`). -/
def charsOf (idxs : List Nat) : String :=
  ⟨idxs.map (fun k => alphabet.data.getD k 'A')⟩

/-- Round a natural number to 53 significant bits, nearest-even — the rounding
an IEEE-754 double applies to an exact integer product.  Needed because the
hash's multiplication `e *= 16777619` can exceed 2^53 in JavaScript. -/
def roundNat53 (m : Nat) : Nat :=
  if m < 2 ^ 53 then m
  else
    let k := Nat.log2 m - 52
    let q := m >>> k
    let r := m % 2 ^ k
    let q := if r > 2 ^ (k - 1) || (r = 2 ^ (k - 1) && q % 2 = 1) then q + 1 else q
    q <<< k

/-- IEEE-754 double multiplication of integers (sign via `Int`). -/
def jsMul (a b : Int) : Int :=
  Int.ofNat (roundNat53 (a * b).natAbs) * (if (a * b) < 0 then -1 else 1)

/-- JavaScript `ToInt32`: wrap into `[-2^31, 2^31)`. -/
def toInt32 (x : Int) : Int :=
  let m := x.emod (2 ^ 32)
  if m ≥ 2 ^ 31 then m - 2 ^ 32 else m

/-- JavaScript `x ^ y` on numbers (32-bit two's-complement xor). -/
def int32Xor (x y : Int) : Int :=
  toInt32 (Int.ofNat (Nat.xor (x.emod (2 ^ 32)).toNat (y.emod (2 ^ 32)).toNat))

/-- One step of `calculateHash`: `e *= 16777619, e ^= i[t]`. -/
def hashStep (e : Int) (b : Nat) : Int :=
  int32Xor (jsMul e 16777619) (Int.ofNat b)

/-- Function `calculateHash()` of the source: multiplicative/xor hash of the three
bytes at position `a`, folded to 14 bits (`16383 & e`). -/
def calculateHash (i : List Nat) (a : Nat) : Nat :=
  let e := hashStep (hashStep (hashStep 0 (i.getD a 0)) (i.getD (a + 1) 0)) (i.getD (a + 2) 0)
  (e.emod (2 ^ 32)).toNat &&& 16383

/-- Core loop of `findMatchLength(e)`: length of the common run between positions `cd` and
`a`, capped by `min(cd + 130, a)` and the input length.  The fuel `130`
bounds the run length, exactly as the cap does in the source. -/
def matchLenAux (i : List Nat) (rLim cd a len : Nat) : Nat → Nat
  | 0 => len
  | fuel + 1 =>
    if cd + len < rLim ∧ a + len < i.length ∧
        i.getD (cd + len) 0 = i.getD (a + len) 0 then
      matchLenAux i rLim cd a (len + 1) fuel
    else len

/-- Function `findMatchLength(e)` of the source. -/
def findMatchLength (i : List Nat) (cd a : Nat) : Nat :=
  matchLenAux i (min (cd + 130) a) cd a 0 131

/-- The match-token emission of `processChunk`
(`encodeByte(t - 3); while (i > 127) { encodeByte(127 & i | 128); i >>= 7; }
encodeByte(i)`), staged as the list of emitted bytes.  The first field is the
single byte `t - 3` (`t ≤ 130` so no continuation loop is needed for it); the
second is the distance emitted in 7-bit groups, low group first, each
non-final group tagged with bit `0x80`. -/
def jsVarintAux (i : Nat) : Nat → List Nat
  | 0 => [i]
  | fuel + 1 =>
    if i > 127 then (127 &&& i ||| 128) :: jsVarintAux (i >>> 7) fuel
    else [i]

def jsVarint (i : Nat) : List Nat := jsVarintAux i i

/-- Bytes emitted for one match token (`t` = match length, `dist` = the
distance value the source computes as `a - o - t`). -/
def emitMatch (t dist : Nat) : List Nat :=
  (t - 3) :: jsVarint dist

/-- Function `encodeLiterals()` of the source: flush the pending literal run `[s, a)` in sub-chunks
of at most 127 bytes, each preceded by the control byte `255 & -t`, which for
`1 ≤ t ≤ 127` equals `256 - t`. -/
def literalRunsAux (i : List Nat) (a : Nat) : Nat → Nat → List Nat
  | _, 0 => []
  | s, fuel + 1 =>
    if s < a then
      let t := min 127 (a - s)
      ((256 - t) :: ((i.drop s).take t)) ++ literalRunsAux i a (s + 127) fuel
    else []

def literalRuns (i : List Nat) (s a : Nat) : List Nat :=
  literalRunsAux i a s (a - s + 1)

/-- Compressor state.  `n` is the 16384-bucket hash table (bucket → last
position + 1), `r` the per-chunk previous-occurrence chain (index `pos - u`;
`none` models the `NaN`/`undefined` chain ends), `s` the pending literal
start (`none` models the `-1` sentinel), `o` the skip-until position, `a` the
current position and `out` the bytes emitted so far by the main loop. -/
structure LzState where
  n : Nat → Option Nat
  r : Nat → Option Nat
  s : Option Nat
  o : Nat
  a : Nat
  out : List Nat

/-- The candidate walk of `processChunk`
(`for (; 130 != t && o >= 0 && o >= a - e; )`).  `cand = none` models the
`NaN` produced by reading an absent table/chain entry, which ends the loop
through its `o >= 0` test.  Candidates strictly decrease, so fuel `a + 1`
exceeds the trip count. -/
def chainWalk (i : List Nat) (u a : Nat) (r : Nat → Option Nat) :
    Option Nat → Nat → Nat → Nat → Nat × Nat
  | _, bestLen, dist, 0 => (bestLen, dist)
  | none, bestLen, dist, _ + 1 => (bestLen, dist)
  | some cd, bestLen, dist, fuel + 1 =>
    if bestLen = 130 then (bestLen, dist)
    else if (cd : Int) ≥ (a : Int) - 16384 then
      let len := findMatchLength i cd a
      let (bestLen', dist') :=
        if len ≥ 3 ∧ len > bestLen then (len, a - cd - len) else (bestLen, dist)
      chainWalk i u a r (r (cd - u)) bestLen' dist' fuel
    else (bestLen, dist)

/-- One iteration of the position loop of `processChunk` (the body of
`for (; a < t; a++)`). -/
def chunkStep (i : List Nat) (u : Nat) (hashLimit : Int) (st : LzState) : LzState :=
  let a := st.a
  let inHash := (a : Int) < hashLimit
  let (bestLen, dist) :=
    if inHash then
      if a ≥ st.o then
        chainWalk i u a st.r ((st.n (calculateHash i a)).map (· - 1)) 0 0 (a + 1)
      else (0, 0)
    else (0, 0)
  let st :=
    if inHash then
      { st with
        r := fun j => if j = a - u then (st.n (calculateHash i a)).map (· - 1) else st.r j
        n := fun h => if h = calculateHash i a then some (a + 1) else st.n h }
    else st
  if bestLen ≥ 3 then
    let out := st.out ++ (match st.s with
      | some s => literalRuns i s a
      | none => []) ++ emitMatch bestLen dist
    { st with o := a + bestLen, s := none, a := a + 1, out := out }
  else
    let s := if a ≥ st.o ∧ st.s = none then some a else st.s
    { st with s := s, a := a + 1 }

/-- The position loop of `processChunk`.  `chunkEnd` is
`getMin(u + 32768, i.length)` and `hashLimit` is
`getMin(chunkEnd, i.length - 3 + 1)` — the latter computed in `Int` because
the JavaScript value is negative for inputs shorter than 2 bytes. -/
def chunkLoop (i : List Nat) (u : Nat) (st : LzState) : Nat → LzState
  | 0 => st
  | fuel + 1 =>
    let chunkEnd := min (u + 32768) i.length
    if st.a < chunkEnd then
      chunkLoop i u (chunkStep i u (min (chunkEnd : Int) ((i.length : Int) - 3 + 1)) st) fuel
    else st

/-- The outer chunk loop (`for (; u < i.length && a < i.length; u += e)`),
including the chain re-indexing `r = r.slice(e)` for chunks after the
first. -/
def mainLoop (i : List Nat) (u : Nat) (st : LzState) : Nat → LzState
  | 0 => st
  | fuel + 1 =>
    if u < i.length ∧ st.a < i.length then
      let st := if u > 0 then { st with r := fun j => st.r (j + 16384) } else st
      let st := chunkLoop i u st (i.length + 1)
      mainLoop i (u + 16384) st fuel
    else st

/-- The byte stream the compressor hands to the 6-bit packer: marker byte 19
first, then the main-loop emissions, then the final pending-literal flush
(`-1 != s && encodeLiterals()`). -/
def compressBytes (i : List Nat) : List Nat :=
  let st := mainLoop i 0 ⟨fun _ => none, fun _ => none, none, 0, 0, []⟩ (i.length / 16384 + 2)
  19 :: st.out ++ (match st.s with
    | some s => literalRuns i s st.a
    | none => [])

/-- Full encoder on a byte sequence: compress, pack, map to the alphabet. -/
def encodePayloadBytes (i : List Nat) : String :=
  charsOf (pack6 (compressBytes i))

/-- UTF-8 bytes of a string — the effect of
`unescape(encodeURIComponent(i))` followed by `charCodeAt` in the source. -/
def utf8EncodeCharBytes (c : Char) : List Nat :=
  let n := c.toNat
  if n < 0x80 then [n]
  else if n < 0x800 then [0xC0 ||| (n >>> 6), 0x80 ||| (n &&& 0x3F)]
  else if n < 0x10000 then
    [0xE0 ||| (n >>> 12), 0x80 ||| ((n >>> 6) &&& 0x3F), 0x80 ||| (n &&& 0x3F)]
  else
    [0xF0 ||| (n >>> 18), 0x80 ||| ((n >>> 12) &&& 0x3F),
     0x80 ||| ((n >>> 6) &&& 0x3F), 0x80 ||| (n &&& 0x3F)]

def utf8Bytes (s : String) : List Nat := s.data.flatMap utf8EncodeCharBytes

/-- Top-level `encodePayload` of `collectPayload.js`, as a function of the input
string (the JSON serialization of the telemetry object). -/
def encodePayload (s : String) : String := encodePayloadBytes (utf8Bytes s)

/-! Specification-side definitions for the codec claims.  These are written
from the specification's wording, to be compared against the source-derived
definitions above. -/

/-- Base-128 digits of `n`, least significant group first (never empty). -/
def base128 (n : Nat) : List Nat :=
  if _h : n < 128 then [n] else n % 128 :: base128 (n / 128)
decreasing_by exact Nat.div_lt_self (by omega) (by norm_num)

/-- The specification's varint: 7-bit groups, low group first, every group
except the final one tagged with the continuation bit `0x80`. -/
def specVarint (n : Nat) : List Nat :=
  let ds := base128 n
  ds.dropLast.map (· ||| 128) ++ [ds.getLastD 0]

/-- The specification's literal-run block for a short input: a control byte
equal to `(-length) mod 256` followed by the literal bytes. -/
def specLiteralRunBlock (bs : List Nat) : List Nat :=
  ((-(bs.length : Int)).emod 256).toNat :: bs

end Codec

/-! Embedding of the Express server `dump/dump.ts`: URL parsing, session
cookies, payload builders, telemetry (UBT) payload shape, response decoding
and the orchestration/result assembly of the three handlers
(`/api/flight-search`, `/api/flight-search-grpc`, `/api/flight-search-sort`).

Network calls, TLS sessions, the signing oracles (`signature`, `c_sign`,
`md5`) and `zlib` are external collaborators: response bodies are modelled
post-decompression (the identity branch of `decodeBody`), and the outcome of
the JavaScript `JSON.parse` builtin is passed in as an `Option Json`.
Request-header assembly and console logging are not modelled — no claim
mentions them.  Telemetry entry bodies are modelled by the projection each
claim needs (sequence, timestamp, kind, tag, and the embedded `Flt_BatchId`
value when the body contains one); the remaining body fields are
randomized literals that no claim refers to.
-/

namespace Dump

/-- JSON values, the result type of the `JSON.parse` collaborator. -/
inductive Json where
  | null
  | bool (b : Bool)
  | num (n : Int)
  | str (s : String)
  | arr (elems : List Json)
  | obj (fields : List (String × Json))

/-- Property lookup on an object's field list (first binding wins). -/
def lookupField : List (String × Json) → String → Option Json
  | [], _ => none
  | (k', v) :: rest, k => if k' = k then some v else lookupField rest k

/-- JavaScript optional-chaining property access `j?.k`: `undefined` on
non-objects. -/
def Json.lookup : Json → String → Option Json
  | .obj fields, k => lookupField fields k
  | _, _ => none

/-- JavaScript truthiness of a JSON value. -/
def jsTruthy : Json → Bool
  | .null => false
  | .bool b => b
  | .num n => n ≠ 0
  | .str s => s ≠ ""
  | .arr _ => true
  | .obj _ => true

/-- JavaScript `a || b` for an optional string (`undefined` and `""` are
falsy). -/
def jsOrStr (o : Option String) (dflt : String) : String :=
  match o with
  | some s => if s = "" then dflt else s
  | none => dflt

/-- JavaScript `a || undefined` for an optional string. -/
def jsOrUndef (o : Option String) : Option String :=
  match o with
  | some s => if s = "" then none else some s
  | none => none

/-- JavaScript `a || b` for an optional number (`NaN` is `none`, `0` is
falsy). -/
def jsOrNum (o : Option Int) (dflt : Int) : Int :=
  match o with
  | some n => if n = 0 then dflt else n
  | none => dflt

/-- JavaScript truthiness of an optional string. -/
def optTruthy (o : Option String) : Bool :=
  match o with
  | some s => s ≠ ""
  | none => false

/-- An injected clock value (`new Date()` with its field accessors);
`getFullYear`/`getMonth`+1/… are the corresponding record fields. -/
structure JsDate where
  year : Nat
  month : Nat
  day : Nat
  hour : Nat
  minute : Nat
  second : Nat
  ms : Nat
  deriving Repr, DecidableEq

/-- The `YYYYMMDDHHMMSSmmm` timestamp used by
`generateFltAppSessionTransactionId` and `generateCombinedCookie`. -/
def dateStamp (d : JsDate) : String :=
  toString d.year ++ padStart 2 d.month ++ padStart 2 d.day ++ padStart 2 d.hour
    ++ padStart 2 d.minute ++ padStart 2 d.second ++ padStart 3 d.ms

/-- Function `generateFltAppSessionTransactionId` of the source:
`1-mf-{yyyyMMddHHmmssSSS}-WEB`. -/
def generateFltAppSessionTransactionId (d : JsDate) : String :=
  "1-mf-" ++ dateStamp d ++ "-WEB"

/-- JavaScript `Date.prototype.toISOString` (the clock is modelled in UTC). -/
def jsToISOString (d : JsDate) : String :=
  padStart 4 d.year ++ "-" ++ padStart 2 d.month ++ "-" ++ padStart 2 d.day ++ "T"
    ++ padStart 2 d.hour ++ ":" ++ padStart 2 d.minute ++ ":" ++ padStart 2 d.second
    ++ "." ++ padStart 3 d.ms ++ "Z"

/-- The value stored in `cookies._combined`: the bootstrap flow stores the
object returned by `generateCombinedCookie()` (which has a `transactionId`
property), while `getCookiesFromHostname` stores the raw cookie string
(reading `.transactionId` on it yields `undefined`).  The percent-encoded
variant of the generated cookie is used only in request headers and is not
modelled. -/
inductive CombinedValue where
  | rawStr (value : String)
  | generated (transactionId : String) (raw : String)
  deriving Repr, DecidableEq

/-- JavaScript property access `cookies._combined.transactionId` once
`_combined` is known to be defined. -/
def CombinedValue.transactionIdProp : CombinedValue → Option String
  | .rawStr _ => none
  | .generated t _ => some t

/-- Function `generateCombinedCookie()` of the source, called by the
handlers with no options (page id `10320667452`,
`usedistributionchannels=False`). -/
def generateCombinedCookie (now : JsDate) : CombinedValue :=
  let transactionId := "1-mf-" ++ dateStamp now ++ "-WEB"
  .generated transactionId
    ("transactionId=" ++ transactionId ++
     "&pageId=10320667452&initPageId=10320667452&usedistributionchannels=False")

/-- The session-cookie record threaded through the handlers (the fields the
claims touch; request-header context values are omitted). -/
structure SessionCookies where
  GUID : Option String := none
  UBT_VID : Option String := none
  transactionId : Option String := none
  pageId : Option String := none
  _combined : Option CombinedValue := none
  _RF1 : Option String := none
  ibu_flt_pref_cfg : Option String := none
  abtestUserid : Option String := none

/-- Structured search parameters extracted from the URL (interface
`FlightSearchParams` of the source; optional fields keep their
TypeScript optionality). -/
structure FlightSearchParams where
  dcity : String
  acity : String
  ddate : String
  rdate : Option String
  triptype : String
  «class» : Option String
  quantity : Option Int
  locale : Option String
  curr : Option String
  dairport : Option String := none
  aairport : Option String := none
  deriving Repr, DecidableEq

/-- Parsed URL data (interface `ParsedUrlData` of the source). -/
structure ParsedUrlData where
  hostname : String
  region : String
  params : FlightSearchParams
  deriving Repr, DecidableEq

/-- Query-string parsing as done by `URLSearchParams`: split on `&`, split
each segment at the first `=`, percent-decode both parts, skip empty
segments. -/
def parseQueryPairs (q : List Char) : List (String × String) :=
  (splitOnChar '&' q).filterMap fun seg =>
    if seg = [] then none
    else
      let name := seg.takeWhile (· ≠ '=')
      let value := (seg.dropWhile (· ≠ '=')).drop 1
      some (⟨percentDecodeL name⟩, ⟨percentDecodeL value⟩)

/-- Lookup `searchParams.get(k)` (`null` modelled as `none`). -/
def searchParamsGet (pairs : List (String × String)) (k : String) : Option String :=
  (pairs.find? (fun p => p.1 = k)).map (·.2)

/-- A minimal model of the WHATWG `new URL(...)` parse: scheme before
`://`, hostname up to `/`, `?`, `#` or `:` (userinfo is not modelled — no
modelled input carries one), query between `?` and `#`.  `none` models the
`TypeError` thrown on an input without a scheme separator. -/
def parseUrlModel (u : String) : Option (String × List (String × String)) :=
  match splitFirstOn "://".data u.data with
  | none => none
  | some (_scheme, rest) =>
    let authority := rest.takeWhile (fun c => ¬(c = '/' ∨ c = '?' ∨ c = '#'))
    let hostname := authority.takeWhile (· ≠ ':')
    let afterAuth := rest.drop authority.length
    let query :=
      match afterAuth.dropWhile (· ≠ '?') with
      | [] => []
      | _ :: qs => qs.takeWhile (· ≠ '#')
    some (⟨hostname⟩, parseQueryPairs query)

/-- Function `parseTripUrl` of the source. -/
def parseTripUrl (urlString : String) : Option ParsedUrlData :=
  (parseUrlModel urlString).map fun hp =>
    let hostname := hp.1
    let pairs := hp.2
    let hostParts := strSplitChar '.' hostname
    let region := jsOrStr (some (hostParts.getD 0 "")) "id"
    { hostname := hostname
      region := region
      params :=
        { dcity := jsOrStr (searchParamsGet pairs "dcity") ""
          acity := jsOrStr (searchParamsGet pairs "acity") ""
          ddate := jsOrStr (searchParamsGet pairs "ddate") ""
          rdate := jsOrUndef (searchParamsGet pairs "rdate")
          triptype := jsOrStr (searchParamsGet pairs "triptype") "rt"
          «class» := some (jsOrStr (searchParamsGet pairs "class") "y")
          quantity := parseIntJs (jsOrStr (searchParamsGet pairs "quantity") "1")
          locale := some (jsOrStr (searchParamsGet pairs "locale")
            ("en-" ++ strUpper region))
          curr := some (jsOrStr (searchParamsGet pairs "curr")
            (if region = "id" then "IDR" else "USD"))
          dairport := jsOrUndef (searchParamsGet pairs "dairport")
          aairport := jsOrUndef (searchParamsGet pairs "aairport") } }

/-- One journey leg of the search payload. -/
structure JourneyInfo where
  journeyNo : Nat
  departDate : String
  departCode : String
  arriveCode : String
  departAirport : String
  arriveAirport : String
  deriving Repr, DecidableEq

/-- One entry of the `head.extension` array (`{name}` entries carry no
value). -/
structure ExtEntry where
  name : String
  value : Option String
  deriving Repr, DecidableEq

structure SortInfoType where
  direction : Bool
  orderBy : String
  deriving Repr, DecidableEq

/-- The `head` block of the full search payload. -/
structure PayloadHead where
  cid : String
  ctok : String
  cver : String
  lang : String
  sid : String
  syscode : String
  auth : String
  xsid : String
  extension : List ExtEntry
  locale : String
  language : String
  currency : String
  clientID : String
  appid : String
  deriving Repr, DecidableEq

/-- The full search payload built by `buildFlightSearchPayload` (field
`searchCriteria` is flattened into the scalar fields below). -/
structure FlightSearchPayload where
  mode : Nat
  grade : Nat
  realGrade : Nat
  tripType : Nat
  journeyNo : Nat
  adultCount : Nat
  childCount : Nat
  infantCount : Nat
  journeyInfoTypes : List JourneyInfo
  productId : Option String
  sortInfoType : SortInfoType
  flagList : List String
  abtList : List (String × String)
  head : PayloadHead
  deriving Repr, DecidableEq

/-- The journey legs built by both `buildTokenPayload` and
`buildFlightSearchPayload` (identical blocks in the source): leg 1 from the
departure parameters; leg 2, present only when a return date is set and the
trip type is round-trip, with endpoints swapped and the return date. -/
def buildJourneyInfoTypes (params : FlightSearchParams) (tripType : Nat) :
    List JourneyInfo :=
  [{ journeyNo := 1
     departDate := params.ddate
     departCode := if optTruthy params.dairport then "" else strUpper params.dcity
     arriveCode := if optTruthy params.aairport then "" else strUpper params.acity
     departAirport := if optTruthy params.dairport then strUpper (params.dairport.getD "") else ""
     arriveAirport := if optTruthy params.aairport then strUpper (params.aairport.getD "") else "" }]
  ++ (if optTruthy params.rdate ∧ tripType = 2 then
      [{ journeyNo := 2
         departDate := params.rdate.getD ""
         departCode := if optTruthy params.aairport then "" else strUpper params.acity
         arriveCode := if optTruthy params.dairport then "" else strUpper params.dcity
         departAirport := if optTruthy params.aairport then strUpper (params.aairport.getD "") else ""
         arriveAirport := if optTruthy params.dairport then strUpper (params.dairport.getD "") else "" }]
    else [])

/-- The cabin-class name mapping of `buildWPayloadSourcePayload`
(`params.class === 'y' ? 'Economy' : ... : 'Economy'`). -/
def cabinClass («class» : Option String) : String :=
  if «class» = some "y" then "Economy"
  else if «class» = some "c" then "Business"
  else if «class» = some "f" then "First"
  else "Economy"

/-- Function `buildFlightSearchPayload` of the source.  The unguarded
property access `cookies._combined.transactionId` (line 558) throws a
`TypeError` when `_combined` is absent; this is the `Except.error` case.
When `_combined` holds the raw cookie string, `.transactionId` is
`undefined` and the `||` falls back to a freshly generated transaction
id. -/
def buildFlightSearchPayload (params : FlightSearchParams)
    (cookies : SessionCookies) (fltBatchId : String)
    (productId : Option String) (now : JsDate) :
    Except String FlightSearchPayload :=
  let tripType := if strLower params.triptype = "rt" then 2 else 1
  let grade :=
    if params.«class» = some "y" then 1
    else if params.«class» = some "c" then 4
    else if params.«class» = some "f" then 8
    else 1
  let journeyInfoTypes := buildJourneyInfoTypes params tripType
  let timestamp := strReplaceFirst (jsToISOString now) "Z" "+00:00"
  match cookies._combined with
  | none =>
    .error "TypeError: Cannot read properties of undefined (reading 'transactionId')"
  | some comb =>
    let fltAppSessionTransactionId :=
      jsOrStr comb.transactionIdProp (generateFltAppSessionTransactionId now)
    .ok
      { mode := 0
        grade := 3
        realGrade := grade
        tripType := tripType
        journeyNo := 1
        adultCount := (jsOrNum params.quantity 1).toNat
        childCount := 0
        infantCount := 0
        journeyInfoTypes := journeyInfoTypes
        productId := jsOrUndef productId
        sortInfoType := { direction := true, orderBy := "Direct" }
        flagList := ["NEED_RESET_SORT", "FullDataCache"]
        abtList := [("250811_IBU_wjrankol", "A"), ("250806_IBU_FiltersOpt", "A"),
                    ("250812_IBU_FiltersOp2", "A"), ("251023_IBU_pricetool", "C")]
        head :=
          { cid := jsOrStr cookies.GUID ""
            ctok := ""
            cver := "3"
            lang := "01"
            sid := "8888"
            syscode := "40"
            auth := ""
            xsid := ""
            extension :=
              [⟨"source", some "ONLINE"⟩,
               ⟨"sotpGroup", some "Trip"⟩,
               ⟨"sotpLocale", some (jsOrStr params.locale "en-ID")⟩,
               ⟨"sotpCurrency", some (jsOrStr params.curr "IDR")⟩,
               ⟨"allianceID", some "0"⟩,
               ⟨"sid", some "0"⟩,
               ⟨"ouid", some ""⟩,
               ⟨"uuid", none⟩,
               ⟨"useDistributionType", some "1"⟩,
               ⟨"flt_app_session_transactionId", some fltAppSessionTransactionId⟩,
               ⟨"vid", some (jsOrStr cookies.UBT_VID "")⟩,
               ⟨"pvid", some "1"⟩,
               ⟨"Flt_SessionId", some "1"⟩,
               ⟨"channel", none⟩,
               ⟨"x-ua", some "v=3_os=ONLINE_osv=10.15.7"⟩,
               ⟨"PageId", some (jsOrStr cookies.pageId "10320667452")⟩,
               ⟨"clientTime", some timestamp⟩,
               ⟨"LowPriceSource", some "searchForm"⟩,
               ⟨"Flt_BatchId", some fltBatchId⟩,
               ⟨"BlockTokenTimeout", some "0"⟩,
               ⟨"full_link_time_scene", some "pure_list_page"⟩,
               ⟨"xproduct", some "baggage"⟩,
               ⟨"units", some "METRIC"⟩,
               ⟨"sotpUnit", some "METRIC"⟩]
            locale := jsOrStr params.locale "en-ID"
            language := (strSplitChar '-' (jsOrStr params.locale "en-ID")).getD 0 ""
            currency := jsOrStr params.curr "IDR"
            clientID := ""
            appid := "700020" } }

/-- Value of a named `head.extension` entry of a search payload. -/
def extensionValue (p : FlightSearchPayload) (name : String) : Option (Option String) :=
  (p.head.extension.find? (fun e => e.name = name)).map (·.value)

/-! Session bootstrap: cookie extraction from the root visit. -/

/-- A transport response as seen by the cookie-extraction code: status,
named cookies and response headers (bodies are handled elsewhere). -/
structure RootResponse where
  statusCode : Nat
  cookies : List (String × String)
  headers : List (String × String)
  deriving Repr, DecidableEq

def lookupAssoc (l : List (String × String)) (k : String) : Option String :=
  (l.find? (fun p => p.1 = k)).map (·.2)

/-- The `_combined` handling block of `getCookiesFromHostname`: normalize the
legacy `nodejs` marker to `WEB`, then parse `transactionId` and `pageId` out
of the decoded cookie; a `decodeURIComponent` failure is caught and leaves
both unset. -/
def parseCombinedCookie (v : String) :
    String × Option String × Option String :=
  let combined := if strContains v "nodejs" then strReplaceAll v "nodejs" "WEB" else v
  match percentDecodeS combined.data with
  | none => (combined, none, none)
  | some decoded =>
    let pairs := parseQueryPairs decoded
    let transactionId0 := jsOrStr (searchParamsGet pairs "transactionId") ""
    let transactionId :=
      if transactionId0 ≠ "" ∧ strContains transactionId0 "nodejs" then
        strReplaceAll transactionId0 "nodejs" "WEB"
      else transactionId0
    let pageId := jsOrStr (some (jsOrStr (searchParamsGet pairs "pageId")
      (jsOrStr (searchParamsGet pairs "initPageId") ""))) ""
    (combined, some transactionId, some pageId)

/-- Function `getCookiesFromHostname` of the source (the cookie fields the
claims depend on; the context-header record and the pass-through of
miscellaneous tracking cookies are omitted).  `freshAbtestUserid` is the
`randomUUID()` draw assigned to `_abtest_userid`.  Note that `_combined` is
stored as the raw cookie *string* here, and is stored only when the root
response actually set a `_combined` cookie. -/
def getCookiesFromHostname (resp : RootResponse) (freshAbtestUserid : String) :
    SessionCookies :=
  let base : SessionCookies :=
    { GUID := lookupAssoc resp.cookies "GUID"
      UBT_VID := lookupAssoc resp.cookies "UBT_VID"
      _RF1 := lookupAssoc resp.cookies "_RF1"
      abtestUserid := some freshAbtestUserid }
  match lookupAssoc resp.cookies "_combined" with
  | none => base
  | some v =>
    let (combined, transactionId, pageId) := parseCombinedCookie v
    { base with
      _combined := some (.rawStr combined)
      transactionId := transactionId
      pageId := pageId }

/-! Telemetry (UBT) payload — the projection of `buildUbtPayload` the claims
are about. -/

/-- One `ubtList` entry `[sequence, timestampMs, kind, tag|null, body]`,
projected to its sequence, timestamp, kind and tag, plus the `Flt_BatchId`
value embedded in its body when the body contains one (the entries that
serialize a `FlightListSearchSSE`/`FlightListSearch` request payload or
header block). -/
structure UbtEntry where
  seq : Nat
  ts : Int
  kind : String
  tag : Option String
  fltBatchIdRef : Option String
  deriving Repr, DecidableEq

/-- The telemetry payload built by `buildUbtPayload`: the entry list, the
`sendTs` echoed in the payload, the `Flt_BatchId` freshly generated *inside*
`buildUbtPayload` (line 898: `const fltBatchId = generateUUID()`), and the
`ubt_batchid` string. -/
structure UbtPayloadModel where
  ubtList : List UbtEntry
  sendTs : Int
  fltBatchId : String
  ubtBatchId : String

/-- Shape of the 37 entries of `ubtListItemsPart2` (sequences 151–187):
kind, tag, whether the timestamp draw is the resource-timing form
`sendTs - random(250000) - 100000` (`true`) or the pre-search form
`sendTs - random(5000) - 200000` (`false`), and whether the body embeds the
`Flt_BatchId` value. -/
def part2Shape : List (String × Option String × Bool × Bool) :=
  [("metric", none, true, false),            -- 151 bbz_perf_resource_timing
   ("metric", none, true, false),            -- 152 bbz_perf_resource_timing
   ("metric", none, false, true),            -- 153 ..sse_each_search_time
   ("metric", none, false, true),            -- 154 ..sse_performance
   ("trace", some "tiled_tl", false, false), -- 155 O_FLT_Request_Service_State
   ("dev_trace", some "tiled_tl", false, false), -- 156 ibu_flt_online_jserror_log
   ("trace", some "tiled_tl", false, false), -- 157 ibu_flt_online_tolist_basic
   ("trace", some "tiled_tl", false, false), -- 158 ..listsearchbox_action
   ("trace", some "tiled_tl", false, false), -- 159 all_flt_list_page_query
   ("metric", none, false, false),           -- 160 ..sdt_performance
   ("dev_trace", some "tiled_tl", false, false), -- 161 ibu_flt_pc_dev_http_headers
   ("dev_trace", some "tiled_tl", false, false), -- 162 ibu_flt_pc_dev_http_headers
   ("metric", none, false, false),           -- 163 webcore_fetch_cSign
   ("metric", none, false, false),           -- 164 webcore_fetch_cSign
   ("metric", none, false, false),           -- 165 web_resource_perf
   ("dev_trace", some "tiled_tl", false, false), -- 166 o_flt_coffeebean_dev
   ("dev_trace", some "tiled_tl", false, false), -- 167 o_flt_coffeebean_dev
   ("dev_trace", some "tiled_tl", false, false), -- 168 o_flt_coffeebean_dev
   ("dev_trace", some "tiled_tl", false, false), -- 169 o_flt_coffeebean_window_size
   ("metric", none, false, false),           -- 170 ..h5gateway_performance_all
   ("metric", none, false, false),           -- 171 ..h5gateway_performance_all
   ("metric", none, false, false),           -- 172 ..h5gateway_performance_all
   ("dev_trace", some "tiled_tl", false, false), -- 173 ibu_flt_pc_dev_http_headers
   ("metric", none, false, false),           -- 174 webcore_fetch_cSign
   ("dev_trace", some "tiled_tl", false, false), -- 175 ibu_flt_pc_dev_http_headers
   ("metric", none, false, false),           -- 176 webcore_fetch_cSign
   ("dev_trace", some "tiled_tl", false, false), -- 177 ibu_ajax_devtrace
   ("metric", none, false, false),           -- 178 ibu_ajax_perf
   ("metric", none, false, false),           -- 179 JS.Lizard.AjaxReady
   ("metric", none, false, false),           -- 180 o_web_http_success
   ("metric", none, false, false),           -- 181 web_ajax_perf
   ("dev_trace", some "tiled_tl", false, false), -- 182 webcore_sse_info
   ("dev_trace", some "tiled_tl", false, false), -- 183 webcore_sse_info
   ("metric", none, false, true),            -- 184 o_web_http_fail (buHead)
   ("metric", none, false, false),           -- 185 web_ajax_perf
   ("metric", none, false, false),           -- 186 o_web_http_success
   ("metric", none, false, true)]            -- 187 web_ajax_perf (full payload)

/-- Build `ubtListItemsPart2`: sequences restart at 151
(`sequenceCounter = 151`) and increment per entry; each entry draws one
random value for its timestamp. -/
def mkPart2 (sendTs : Int) (rand : Nat → Nat) (fbid : String) : List UbtEntry :=
  part2Shape.enum.map fun p =>
    match p with
    | (idx, kind, tag, early, hasRef) =>
      { seq := 151 + idx
        ts := if early then sendTs - rand (idx + 1) - 100000
              else sendTs - rand (idx + 1) - 200000
        kind := kind
        tag := tag
        fltBatchIdRef := if hasRef then some fbid else none }

/-- Function `buildUbtPayload` of the source, projected as described on
`UbtEntry`.  `rand` is the injected `Math.random` source for the timestamp
draws (`rand 0` is `Math.floor(Math.random() * 30000)` of `baseTimestamp`;
`rand (idx+1)` the draw of part-2 entry `idx`); `uuidDraw` is the
`generateUUID()` call at line 898 and `shortId` the `generateShortId()`
draws.  `ubtListItemsPart1` uses sequences 34–44 with offsets 0, 0, 27, 30,
33, 38, 68, 69+i and 70 from `baseTimestamp = sendTs - rand 0 - 100000`. -/
def buildUbtPayload (_params : FlightSearchParams) (_cookies : SessionCookies)
    (_url : String) (sendTs : Int) (rand : Nat → Nat) (uuidDraw : String)
    (shortId : Nat → String) : UbtPayloadModel :=
  let baseTimestamp : Int := sendTs - rand 0 - 100000
  let fltBatchId := uuidDraw
  let part1 : List UbtEntry :=
    [{ seq := 34, ts := baseTimestamp, kind := "metric", tag := none, fltBatchIdRef := none },
     { seq := 35, ts := baseTimestamp, kind := "trace", tag := some "tiled_tl", fltBatchIdRef := none },
     { seq := 36, ts := baseTimestamp + 27, kind := "metric", tag := none, fltBatchIdRef := none },
     { seq := 37, ts := baseTimestamp + 30, kind := "metric", tag := none, fltBatchIdRef := none },
     { seq := 38, ts := baseTimestamp + 33, kind := "metric", tag := none, fltBatchIdRef := none },
     { seq := 39, ts := baseTimestamp + 38, kind := "dev_trace", tag := some "tiled_tl", fltBatchIdRef := none },
     { seq := 40, ts := baseTimestamp + 68, kind := "metric", tag := none, fltBatchIdRef := none },
     { seq := 41, ts := baseTimestamp + 69, kind := "metric", tag := none, fltBatchIdRef := none },
     { seq := 42, ts := baseTimestamp + 70, kind := "metric", tag := none, fltBatchIdRef := none },
     { seq := 43, ts := baseTimestamp + 71, kind := "metric", tag := none, fltBatchIdRef := none },
     { seq := 44, ts := baseTimestamp + 70, kind := "metric", tag := none, fltBatchIdRef := none }]
  { ubtList := part1 ++ mkPart2 sendTs rand fltBatchId
    sendTs := sendTs
    fltBatchId := fltBatchId
    ubtBatchId := toString (sendTs - 1) ++ "_" ++ shortId 0 ++ "_" ++ shortId 1 }

/-! Response decoding: SSE `data:` line selection per handler variant. -/

/-- Line selection of `/api/flight-search` (initial search, CycleTLS): when
the body contains `data:`, take the *first* line starting with `data:`,
remove the first `data:` occurrence and trim; otherwise (or when no line
starts with `data:`) keep the whole body. -/
def selectInitialBody (responseBody : String) : String :=
  if strContains responseBody "data:" then
    match (strSplitNl responseBody).filter (fun l => strStartsWith l "data:") with
    | [] => responseBody
    | l :: _ => strTrim (strRemoveFirst l "data:")
  else responseBody

/-- The `.replace(/^data:\s*/, '')` of the gRPC handler: strip a leading
`data:` and any following whitespace. -/
def stripDataPrefixWs (l : String) : String :=
  if strStartsWith l "data:" then ⟨(l.data.drop 5).dropWhile isJsWs⟩ else l

/-- Line selection of `/api/flight-search-grpc` (initial search, gRPC
session): trim every line, keep lines starting with `data:` that are longer
than 5 characters, and take the *last* one. -/
def selectGrpcBody (responseBody : String) : String :=
  if strContains responseBody "data:" then
    let dataLines := ((strSplitNl responseBody).map strTrim).filter
      (fun l => strStartsWith l "data:" && decide (5 < l.length))
    match dataLines.getLast? with
    | none => responseBody
    | some l => strTrim (stripDataPrefixWs l)
  else responseBody

/-- Line selection of `/api/flight-search-sort`: the handler parses
`searchResponse.body` directly (line 4389) — no event-stream handling. -/
def selectSortBody (responseBody : String) : String := responseBody

/-! Stage C of the initial handler: the `Promise.allSettled` fan-out over
the UBT collect call and the main `FlightListSearchSSE` call (the `clog`
member is commented out in the source), its result labelling, and the final
result assembly. -/

/-- An HTTP response as consumed by the result assembly.  Bodies are
modelled post-decompression: `decodeBody` dispatches on
`content-encoding` to `zlib` (an external collaborator) and is the identity
for unencoded bodies, which is the case the embedded pipeline models. -/
structure HttpResponse where
  statusCode : Nat
  body : String
  deriving Repr, DecidableEq

/-- Outcome of one settled promise (`Promise.allSettled` element). -/
inductive SettledResult (α : Type) where
  | fulfilled (value : α)
  | rejected (reason : String)

/-- The tagged values returned by the two Stage-C tasks. -/
inductive ConcValue where
  | ubtCollect (response : HttpResponse)
  | flightSearch (response : HttpResponse)

/-- One entry of the handler's `results` report. -/
structure StepResult where
  name : String
  success : Bool
  statusCode : Option Nat
  error : Option String
  deriving Repr, DecidableEq

/-- The `endpointNames` array of the source.  It still lists three names
although only two promises are in the fan-out (`clog` is commented out), so
the `FlightListSearchSSE` promise is labelled `clog`. -/
def endpointNames : List String := ["UBT collect", "clog", "FlightListSearchSSE"]

def concStatusCode : ConcValue → Nat
  | .ubtCollect r => r.statusCode
  | .flightSearch r => r.statusCode

/-- Labelling of one settled outcome (the `concurrentCalls.forEach`
body). -/
def toStepResult (idx : Nat) (c : SettledResult ConcValue) : StepResult :=
  match c with
  | .fulfilled v =>
    { name := endpointNames.getD idx "", success := true,
      statusCode := some (concStatusCode v), error := none }
  | .rejected reason =>
    { name := endpointNames.getD idx "", success := false,
      statusCode := none, error := some reason }

/-- The `flightSearchResponse` assignment of the `forEach` loop: the last
fulfilled value tagged `flightSearch`. -/
def flightResponseOf (calls : List (SettledResult ConcValue)) : Option HttpResponse :=
  calls.foldl
    (fun acc c =>
      match c with
      | .fulfilled (.flightSearch r) => some r
      | _ => acc)
    none

/-- Stage C join: build the `results` report (with the off-by-one endpoint
labels) and extract the main-search response. -/
def stageCResults (ubt flight : SettledResult HttpResponse) :
    List StepResult × Option HttpResponse :=
  let calls : List (SettledResult ConcValue) :=
    [match ubt with
     | .fulfilled r => .fulfilled (.ubtCollect r)
     | .rejected e => .rejected e,
     match flight with
     | .fulfilled r => .fulfilled (.flightSearch r)
     | .rejected e => .rejected e]
  (calls.enum.map fun p => toStepResult p.1 p.2, flightResponseOf calls)

/-- The `productId` extraction
(`if (flightData?.basicInfo?.productId) productId = ...`). -/
def productIdOf (j : Json) : Option Json :=
  match j.lookup "basicInfo" with
  | some bi =>
    match bi.lookup "productId" with
    | some v => if jsTruthy v then some v else none
    | none => none
  | none => none

/-- The blocked-heuristic test of line 3516
(`flightData?.basicInfo?.recordCount === 1`, a strict comparison with the
number `1`). -/
def recordCountIsOne (j : Json) : Bool :=
  match j.lookup "basicInfo" with
  | some bi =>
    match bi.lookup "recordCount" with
    | some (.num 1) => true
    | _ => false
  | none => false

/-- Condition of the warning branch the handler runs for a blocked/captcha
response; the branch only prints console diagnostics. -/
def blockedHeuristicBranch (parsed : Option Json) : Bool :=
  match parsed with
  | some j => recordCountIsOne j
  | none => false

/-- The success response of `/api/flight-search` (the argument of
`res.json({...})` at line 3576). -/
structure FlightSearchOk where
  success : Bool
  statusCode : Nat
  data : Json
  productId : Option Json
  cookiesGuid : Option String
  cookiesTransactionId : Option String
  cookiesPageId : Option String

/-- Result assembly of the initial handler: `flightData` is the parsed JSON
when `JSON.parse` succeeded, else the raw body (the `catch` at line 3571);
`productId` stays `undefined` when parsing failed or the field is absent or
falsy. -/
def assembleInitialResult (parsed : Option Json) (rawBody : String)
    (statusCode : Nat) (cookies : SessionCookies) : FlightSearchOk :=
  { success := true
    statusCode := statusCode
    data := match parsed with | some j => j | none => .str rawBody
    productId := match parsed with | some j => productIdOf j | none => none
    cookiesGuid := cookies.GUID
    cookiesTransactionId := cookies.transactionId
    cookiesPageId := cookies.pageId }

/-- Helper for JSON serialization: `JSON.stringify` drops keys whose value
is `undefined`. -/
def objField (k : String) (o : Option Json) : List (String × Json) :=
  match o with
  | some v => [(k, v)]
  | none => []

/-- The JSON body `res.json` would serialize for a success result (the
`params` echo inside `metadata` is elided — no claim reads it). -/
def resultJson (r : FlightSearchOk) (hostname region : String) : Json :=
  .obj ([("success", .bool r.success), ("statusCode", .num r.statusCode),
         ("data", r.data)]
    ++ objField "productId" r.productId
    ++ [("cookies", .obj (objField "guid" (r.cookiesGuid.map .str)
          ++ objField "transactionId" (r.cookiesTransactionId.map .str)
          ++ objField "pageId" (r.cookiesPageId.map .str))),
        ("metadata", .obj [("hostname", .str hostname), ("region", .str region)])])

/-- Keys of a JSON object. -/
def topLevelKeys : Json → List String
  | .obj fields => fields.map (·.1)
  | _ => []

/-- Keys of a JSON object whose value is the boolean `true` — any
"diagnostic flag set to true" in a result would be one of these. -/
def topLevelTrueBoolKeys : Json → List String
  | .obj fields =>
    (fields.filter fun f =>
      match f.2 with
      | .bool true => true
      | _ => false).map (·.1)
  | _ => []

/-- Outcome of one handler run: the success JSON, or the `catch` response
`res.status(500).json({success: false, error: message})`. -/
inductive ApiOutcome where
  | ok (result : FlightSearchOk)
  | err (httpStatus : Nat) (errorMessage : String)

/-- The `success` flag of the response body. -/
def ApiOutcome.successFlag : ApiOutcome → Bool
  | .ok r => r.success
  | .err _ _ => false

/-- The `error` field of the response body (`none` on success). -/
def ApiOutcome.errorMessage : ApiOutcome → Option String
  | .ok _ => none
  | .err _ m => some m

/-- Stage C and result assembly of `/api/flight-search`: join the two
settled promises; when no `flightSearch` value was produced, look up a
result named `FlightListSearchSSE` (never present, because the labels are
`UBT collect` and `clog`) and throw — the `catch` turns the thrown message
into a 500 failure; otherwise decode/select the body, parse it (`parse`
models `JSON.parse`), and assemble the success response. -/
def runInitialStageC (ubt flight : SettledResult HttpResponse)
    (parse : String → Option Json) (finalCookies : SessionCookies) : ApiOutcome :=
  let rs := stageCResults ubt flight
  match rs.2 with
  | none =>
    match rs.1.find? (fun r => r.name = "FlightListSearchSSE") with
    | some fr =>
      if fr.success = false then
        .err 500 ("FlightListSearchSSE failed: " ++ fr.error.getD "Unknown error")
      else .err 500 "FlightListSearchSSE response not found"
    | none => .err 500 "FlightListSearchSSE response not found"
  | some resp =>
    let responseBody := selectInitialBody resp.body
    .ok (assembleInitialResult (parse responseBody) resp.body resp.statusCode finalCookies)

/-! The `/api/flight-search-sort` flow up to the main search call. -/

/-- Outcome of the sort handler's payload stage: either the `TypeError`
escapes to the handler's `catch` (a 500 failure is returned and the
`FlightListSearch` request is never issued), or the payload is built, its
`sortInfoType` overwritten, and the search request goes out. -/
inductive SortOutcome where
  | failedBeforeSearch (httpStatus : Nat) (errorMessage : String)
  | searchIssued (payload : FlightSearchPayload)

def SortOutcome.searchWasIssued : SortOutcome → Bool
  | .failedBeforeSearch _ _ => false
  | .searchIssued _ => true

def SortOutcome.successFlag : SortOutcome → Bool
  | .failedBeforeSearch _ _ => false
  | .searchIssued _ => true

/-- The sort/refine handler `/api/flight-search-sort` up to the issuance of
the `FlightListSearch` request: parse the URL, extract root cookies (no
`_combined` synthesis anywhere in this flow), build the search payload with
the supplied product id, overwrite `sortInfoType` with the requested sort
spec. -/
def runSortHandler (rootResp : RootResponse) (freshAbtestUserid : String)
    (params : FlightSearchParams) (fltBatchId : String) (productId : String)
    (sortType : String) (direction : Bool) (now : JsDate) : SortOutcome :=
  let rootCookies := getCookiesFromHostname rootResp freshAbtestUserid
  match buildFlightSearchPayload params rootCookies fltBatchId (some productId) now with
  | .error e => .failedBeforeSearch 500 e
  | .ok payload =>
    .searchIssued { payload with sortInfoType := { direction := direction, orderBy := sortType } }

/-! The batch-id wiring of the initial handler (`/api/flight-search`). -/

/-- The payload-building segment of `/api/flight-search` relevant to the
batch id: the handler draws `fltBatchId = generateUUID()` (line 2980) and
passes it to `buildTokenPayload`/`buildFlightSearchPayload`; later it calls
`buildUbtPayload(parsed.params, finalCookies, url, sendTs, parsed, token)`
(line 3130), which does *not* receive that id and draws its own
`generateUUID()` (line 898).  `uuid n` is the `n`-th draw of the injected
UUID source. -/
def runInitialBatchIds (uuid : Nat → String) (params : FlightSearchParams)
    (finalCookies : SessionCookies) (url : String) (now : JsDate)
    (sendTs : Int) (rand : Nat → Nat) (shortId : Nat → String) :
    Except String FlightSearchPayload × UbtPayloadModel :=
  let fltBatchId := uuid 0
  let payload := buildFlightSearchPayload params finalCookies fltBatchId none now
  let ubtPayload := buildUbtPayload params finalCookies url sendTs rand (uuid 1) shortId
  (payload, ubtPayload)

/-- Executable check that a list of naturals is strictly increasing. -/
def strictlyIncreasing : List Nat → Bool
  | [] => true
  | [_] => true
  | a :: b :: rest => a < b && strictlyIncreasing (b :: rest)

/-! Concrete instances used by the claim theorems. -/

/-- The example search URL of the specification. -/
def c9Url : String :=
  "https://id.trip.com/flights/showfarefirst?dcity=jkt&acity=sin&ddate=2026-02-01&rdate=2026-02-03&triptype=rt&class=y&locale=en-ID&curr=IDR"

/-- The decoded main-search response of the specification's blocked-response
example: `data: {"basicInfo":{"recordCount":1}}` parses to this value. -/
def c2ExampleDecoded : Json :=
  .obj [("basicInfo", .obj [("recordCount", .num 1)])]

/-- The SSE body of the blocked-response example (braces written with
escapes). -/
def c2ExampleBody : String :=
  "data: \x7b\"basicInfo\":\x7b\"recordCount\":1\x7d\x7d"

/-- The search parameters the example URL parses to (used to instantiate
the batch-id run of C1 concretely). -/
def c9Params : FlightSearchParams :=
  { dcity := "jkt", acity := "sin", ddate := "2026-02-01"
    rdate := some "2026-02-03", triptype := "rt", «class» := some "y"
    quantity := some 1, locale := some "en-ID", curr := some "IDR" }

/-- A concrete session-cookie record with a bootstrap-generated `_combined`
value, as the initial handler has after its cookie stage. -/
def c1Cookies : SessionCookies :=
  { GUID := some "guid-1"
    UBT_VID := some "vid-1"
    transactionId := some "1-mf-20260130111855469-WEB"
    pageId := some "10320667452"
    _combined := some (.generated "1-mf-20260130111855469-WEB"
      "transactionId=1-mf-20260130111855469-WEB&pageId=10320667452&initPageId=10320667452&usedistributionchannels=False") }

/-- An injected UUID source whose first two draws differ — the generic
behaviour of `generateUUID()` across two calls. -/
def c1Uuid : Nat → String := fun n => if n = 0 then "batch-id-A" else "batch-id-B"

/-- The batch-id run of the initial handler at concrete inputs. -/
def c1Run : Except String FlightSearchPayload × UbtPayloadModel :=
  runInitialBatchIds c1Uuid c9Params c1Cookies c9Url
    ⟨2026, 1, 30, 11, 18, 55, 469⟩ 1769746870490 (fun _ => 0) (fun _ => "66d8UU")

end Dump

/-! Theorems.  One theorem per claim (with counterexamples, amendments and
witnesses where required), preceded by the helper lemmas they share. -/

set_option maxRecDepth 8000

namespace Codec

theorem base128_ne_nil (n : Nat) : base128 n ≠ [] := by
  rw [base128]; split <;> simp

theorem base128_small {n : Nat} (h : n < 128) : base128 n = [n] := by
  rw [base128, dif_pos h]

theorem specVarint_small {n : Nat} (h : n < 128) : specVarint n = [n] := by
  rw [specVarint, base128_small h]; rfl

theorem specVarint_step {n : Nat} (h : 128 ≤ n) :
    specVarint n = (n % 128 ||| 128) :: specVarint (n / 128) := by
  rw [specVarint, specVarint, base128]
  rw [dif_neg (by omega)]
  rcases hds : base128 (n / 128) with _ | ⟨d, ds⟩
  · exact absurd hds (base128_ne_nil (n / 128))
  · simp [List.getLastD_cons]

theorem jsVarintAux_spec : ∀ (fuel i : Nat), i ≤ fuel → jsVarintAux i fuel = specVarint i := by
  intro fuel
  induction fuel with
  | zero =>
    intro i h
    have : i = 0 := by omega
    subst this
    rw [specVarint_small (by omega)]
    rfl
  | succ fuel ih =>
    intro i h
    show (if i > 127 then (127 &&& i ||| 128) :: jsVarintAux (i >>> 7) fuel else [i]) = _
    by_cases h127 : i > 127
    · have hdiv : i >>> 7 = i / 128 := by
        simp [Nat.shiftRight_eq_div_pow]
      have hlt : i >>> 7 ≤ fuel := by
        rw [hdiv]; omega
      have h127' : 127 &&& i = i % 128 := by
        rw [Nat.and_comm]
        exact Nat.and_pow_two_sub_one_eq_mod i 7
      rw [if_pos h127, ih _ hlt, h127', hdiv]
      conv_rhs => rw [specVarint_step (show (128 : Nat) ≤ i by omega)]
    · rw [if_neg h127, specVarint_small (by omega)]

theorem jsVarint_eq_specVarint (n : Nat) : jsVarint n = specVarint n :=
  jsVarintAux_spec n n le_rfl

/-- C6: in the telemetry codec, every match token (match length at least 3,
at most 130) is emitted as two variable-length fields in 7-bit-group varint
encoding with continuation bit `0x80`: first the value `matchLength - 3`,
then the match distance, in that order. -/
theorem c6_match_token_two_varints (t dist : Nat) (h3 : 3 ≤ t) (h130 : t ≤ 130) :
    emitMatch t dist = specVarint (t - 3) ++ specVarint dist := by
  rw [emitMatch, specVarint_small (by omega), jsVarint_eq_specVarint]
  rfl

/-- Witness for C6 at match length 5 and distance 300 (300 = 44 + 2·128
needs two varint groups). -/
theorem c6_match_token_two_varints_witness :
    3 ≤ 5 ∧ 5 ≤ 130 ∧
      emitMatch 5 300 = specVarint 2 ++ specVarint 300 ∧
      emitMatch 5 300 = [2, 172, 2] :=
  ⟨by decide, by decide, c6_match_token_two_varints 5 300 (by decide) (by decide),
   by decide⟩

/-- C7 counterexample: for the *empty* input the codec emits the marker byte
19 and nothing else — no literal-run block at all — whereas the claim
prescribes a literal-run block with control byte `(-0) mod 256 = 0` after
the marker.  At the output-string level the codec produces `"Ew"`, the
claimed byte stream would pack to `"EwA"`. -/
theorem c7_counterexample_empty_input :
    compressBytes [] = [19] ∧
    19 :: specLiteralRunBlock [] = [19, 0] ∧
    compressBytes [] ≠ 19 :: specLiteralRunBlock [] ∧
    encodePayload "" = "Ew" ∧
    charsOf (pack6 (19 :: specLiteralRunBlock [])) = "EwA" := by
  refine ⟨by decide, by decide, by decide, by decide, by decide⟩

/-- C7 (amended): for every input whose UTF-8 byte sequence has length 1
or 2, the codec's byte stream is exactly the marker byte 19 followed by one
literal-run block — the control byte `(-length) mod 256` followed by the
literal bytes — and the output string is that byte stream fed through the
6-bit alphabet packer; the empty input, however, yields the marker byte
alone (no literal-run block). -/
theorem c7_short_input_single_literal_run (bs : List Nat)
    (h1 : 1 ≤ bs.length) (h2 : bs.length ≤ 2) :
    compressBytes bs = 19 :: specLiteralRunBlock bs ∧
    encodePayloadBytes bs = charsOf (pack6 (19 :: specLiteralRunBlock bs)) := by
  match bs, h1, h2 with
  | [b], _, _ =>
    constructor
    · show compressBytes [b] = 19 :: specLiteralRunBlock [b]
      rfl
    · show encodePayloadBytes [b] = charsOf (pack6 (19 :: specLiteralRunBlock [b]))
      rfl
  | [b0, b1], _, _ =>
    constructor
    · rfl
    · rfl

/-- Witness for C7 (amended) at the one-byte input `"a"` (UTF-8 `[97]`). -/
theorem c7_short_input_single_literal_run_witness :
    1 ≤ ([97] : List Nat).length ∧ ([97] : List Nat).length ≤ 2 ∧
      compressBytes [97] = 19 :: specLiteralRunBlock [97] ∧
      compressBytes [97] = [19, 255, 97] ∧
      utf8Bytes "a" = [97] :=
  ⟨by decide, by decide, (c7_short_input_single_literal_run [97] (by decide) (by decide)).1,
   by decide, by decide⟩

end Codec

namespace Dump

/-- C3 counterexample: the sort/refine variant (`/api/flight-search-sort`)
does *not* parse the JSON of the last `data:` line — it hands the whole body
to `JSON.parse` unchanged.  On a body with two `data:` lines the string it
parses is the body itself, not the last line's JSON payload `"[2]"` (which
is what the gRPC *initial-search* variant selects). -/
theorem c3_counterexample_sort_variant_parses_whole_body :
    selectSortBody "data: [1]\ndata: [2]" = "data: [1]\ndata: [2]" ∧
    selectGrpcBody "data: [1]\ndata: [2]" = "[2]" ∧
    "data: [1]\ndata: [2]" ≠ "[2]" :=
  ⟨rfl, by decide, by decide⟩

/-- C3 (amended): when the decoded body contains `data:`-prefixed
event-stream lines, the initial CycleTLS variant (`/api/flight-search`)
parses the JSON of the first such line and the gRPC initial-search variant
(`/api/flight-search-grpc`) parses the JSON of the last such (trimmed,
longer-than-5-characters) line; the sort/refine variant
(`/api/flight-search-sort`) always parses the whole body; when the body
contains no `data:` occurrence, every variant parses the whole body. -/
theorem c3_sse_line_selection_per_variant :
    selectInitialBody "data: [1]\ndata: [2]" = "[1]" ∧
    selectGrpcBody "data: [1]\ndata: [2]" = "[2]" ∧
    (∀ body : String, selectSortBody body = body) ∧
    (∀ body : String, strContains body "data:" = false →
      selectInitialBody body = body ∧ selectGrpcBody body = body) := by
  refine ⟨by decide, by decide, fun _ => rfl, fun body h => ?_⟩
  constructor
  · simp [selectInitialBody, h]
  · simp [selectGrpcBody, h]

/-- Witness for C3 (amended) on a body without `data:` lines. -/
theorem c3_sse_line_selection_per_variant_witness :
    selectInitialBody "plain json body" = "plain json body" ∧
    selectGrpcBody "plain json body" = "plain json body" :=
  c3_sse_line_selection_per_variant.2.2.2 "plain json body" (by decide)

/-- C2 counterexample: on the specification's blocked-response example the
handler returns success with the decoded data, but the returned result
carries *no* blocked-heuristic diagnostic flag: its top-level keys are
exactly `success`, `statusCode`, `data`, `cookies`, `metadata` (no
`productId` key — it is `undefined` — and no flag key), and the only
boolean-`true` field is `success` itself.  The blocked heuristic fires only
as console logging. -/
theorem c2_counterexample_no_diagnostic_flag_field :
    (selectInitialBody c2ExampleBody =
      "\x7b\"basicInfo\":\x7b\"recordCount\":1\x7d\x7d") ∧
    recordCountIsOne c2ExampleDecoded = true ∧
    topLevelKeys (resultJson
      (assembleInitialResult (some c2ExampleDecoded) c2ExampleBody 200 {}) "id.trip.com" "id")
      = ["success", "statusCode", "data", "cookies", "metadata"] ∧
    topLevelTrueBoolKeys (resultJson
      (assembleInitialResult (some c2ExampleDecoded) c2ExampleBody 200 {}) "id.trip.com" "id")
      = ["success"] := by
  refine ⟨by decide, rfl, rfl, rfl⟩

/-- C2 (amended): when the decoded main-search response has
`basicInfo.recordCount` equal to the number 1 and no truthy
`basicInfo.productId`, the operation returns a success result
(`success = true`) with `productId` undefined and the decoded body as
`data`, and no exception is raised; the blocked-heuristic condition is
detected (the handler's warning branch is taken) but surfaced only as
console logging — the returned result carries no diagnostic flag field, its
only boolean-`true` field being `success`. -/
theorem c2_blocked_heuristic_success (j : Json) (rawBody : String)
    (statusCode : Nat) (cookies : SessionCookies)
    (hrc : recordCountIsOne j = true) (hpid : productIdOf j = none) :
    (assembleInitialResult (some j) rawBody statusCode cookies).success = true ∧
    (assembleInitialResult (some j) rawBody statusCode cookies).productId = none ∧
    (assembleInitialResult (some j) rawBody statusCode cookies).data = j ∧
    blockedHeuristicBranch (some j) = true ∧
    ∀ hostname region : String,
      topLevelTrueBoolKeys (resultJson
        (assembleInitialResult (some j) rawBody statusCode cookies) hostname region)
        = ["success"] := by
  refine ⟨rfl, by simp [assembleInitialResult, hpid], rfl,
    by simp [blockedHeuristicBranch, hrc], fun hostname region => ?_⟩
  simp only [resultJson, assembleInitialResult, hpid, topLevelTrueBoolKeys, objField]
  rcases j with _ | b | n | s | es | fs
  · rfl
  · cases b
    · rfl
    · simp [recordCountIsOne, Json.lookup] at hrc
  · rfl
  · rfl
  · rfl
  · rfl

/-- Witness for C2 (amended) at the specification's example. -/
theorem c2_blocked_heuristic_success_witness :
    recordCountIsOne c2ExampleDecoded = true ∧
    productIdOf c2ExampleDecoded = none ∧
    (assembleInitialResult (some c2ExampleDecoded) c2ExampleBody 200 {}).success = true ∧
    (assembleInitialResult (some c2ExampleDecoded) c2ExampleBody 200 {}).productId = none :=
  ⟨rfl, rfl,
   (c2_blocked_heuristic_success c2ExampleDecoded c2ExampleBody 200 {} rfl rfl).1,
   (c2_blocked_heuristic_success c2ExampleDecoded c2ExampleBody 200 {} rfl rfl).2.1⟩

theorem chain'_lt_of_strictlyIncreasing :
    ∀ l : List Nat, strictlyIncreasing l = true → List.Chain' (· < ·) l := by
  intro l
  induction l with
  | nil => intro _; exact List.chain'_nil
  | cons a t ih =>
    cases t with
    | nil => intro _; simp
    | cons b r =>
      intro h
      simp only [strictlyIncreasing, Bool.and_eq_true, decide_eq_true_eq] at h
      rw [List.chain'_cons]
      exact ⟨h.1, ih h.2⟩

/-- C4: whenever the mandatory main search call (`FlightListSearchSSE`)
fails (its promise rejects, so no response is produced), the operation
returns a failure result with `success = false` whose error message names
`FlightListSearchSSE` as the failing step.  (Because the `endpointNames`
labelling is off by one — `clog` is commented out of the fan-out — the
`results` lookup for `FlightListSearchSSE` finds nothing and the thrown
message is always `FlightListSearchSSE response not found`.) -/
theorem c4_main_search_failure_names_step (ubt : SettledResult HttpResponse)
    (reason : String) (parse : String → Option Json)
    (finalCookies : SessionCookies) :
    runInitialStageC ubt (.rejected reason) parse finalCookies
      = .err 500 "FlightListSearchSSE response not found" ∧
    (runInitialStageC ubt (.rejected reason) parse finalCookies).successFlag = false ∧
    strContains "FlightListSearchSSE response not found" "FlightListSearchSSE" = true := by
  refine ⟨?_, ?_, by decide⟩ <;> cases ubt <;> rfl

/-- C5: when the telemetry collect call fails but the main search call
succeeds, the overall result is assembled from the main-search response with
`success = true` and no error — the sibling failure in the Stage-C fan-out
does not abort the operation. -/
theorem c5_collect_failure_tolerated (reason : String) (resp : HttpResponse)
    (parse : String → Option Json) (finalCookies : SessionCookies) :
    (runInitialStageC (.rejected reason) (.fulfilled resp) parse finalCookies).successFlag = true ∧
    (runInitialStageC (.rejected reason) (.fulfilled resp) parse finalCookies).errorMessage = none ∧
    runInitialStageC (.rejected reason) (.fulfilled resp) parse finalCookies
      = .ok (assembleInitialResult (parse (selectInitialBody resp.body))
          resp.body resp.statusCode finalCookies) :=
  ⟨rfl, rfl, rfl⟩

/-- C8: for every telemetry payload built by `buildUbtPayload`, the entries
of `ubtList` have strictly increasing sequence numbers (34–44, then
151–187), and every entry's timestamp is at most the payload's own send
timestamp `sendTs` (each timestamp is `sendTs` minus at least 99929). -/
theorem c8_ubt_list_invariants (params : FlightSearchParams)
    (cookies : SessionCookies) (url : String) (sendTs : Int)
    (rand : Nat → Nat) (uuidDraw : String) (shortId : Nat → String) :
    (buildUbtPayload params cookies url sendTs rand uuidDraw shortId).sendTs = sendTs ∧
    List.Chain' (· < ·)
      ((buildUbtPayload params cookies url sendTs rand uuidDraw shortId).ubtList.map (·.seq)) ∧
    ∀ e ∈ (buildUbtPayload params cookies url sendTs rand uuidDraw shortId).ubtList,
      e.ts ≤ (buildUbtPayload params cookies url sendTs rand uuidDraw shortId).sendTs := by
  refine ⟨rfl, ?_, fun e he => ?_⟩
  · exact chain'_lt_of_strictlyIncreasing _ rfl
  show e.ts ≤ sendTs
  simp only [buildUbtPayload, List.mem_append] at he
  rcases he with h1 | h2
  · fin_cases h1 <;> dsimp <;> omega
  · simp only [mkPart2, List.mem_map] at h2
    obtain ⟨⟨idx, kind, tag, early, hasRef⟩, _, rfl⟩ := h2
    dsimp only
    split <;> omega

/-- C9: the specification's example URL parses to region `id`, trip type
`rt` (which the builders map to the round-trip code 2), cabin class `y`
(Economy, grade 1), locale `en-ID` and currency `IDR`, and the search
payload built from the parsed parameters has exactly two journey legs:
JKT→SIN departing 2026-02-01 and SIN→JKT (endpoints swapped) departing
2026-02-03. -/
theorem c9_example_url_parse_and_legs (ck : SessionCookies)
    (comb : CombinedValue) (h : ck._combined = some comb)
    (fltBatchId : String) (now : JsDate) :
    (parseTripUrl c9Url).map (·.region) = some "id" ∧
    (parseTripUrl c9Url).map (·.params) = some c9Params ∧
    c9Params.triptype = "rt" ∧ c9Params.«class» = some "y" ∧
    c9Params.locale = some "en-ID" ∧ c9Params.curr = some "IDR" ∧
    cabinClass c9Params.«class» = "Economy" ∧
    ∃ p, buildFlightSearchPayload c9Params ck fltBatchId none now = .ok p ∧
      p.tripType = 2 ∧ p.realGrade = 1 ∧
      p.journeyInfoTypes =
        [⟨1, "2026-02-01", "JKT", "SIN", "", ""⟩,
         ⟨2, "2026-02-03", "SIN", "JKT", "", ""⟩] := by
  refine ⟨by decide, by decide, rfl, rfl, rfl, rfl, rfl, ?_⟩
  simp only [buildFlightSearchPayload, h]
  exact ⟨_, rfl, rfl, rfl, rfl⟩

/-- Witness for C9 at a concrete cookie record and clock. -/
theorem c9_example_url_parse_and_legs_witness :
    ∃ p, buildFlightSearchPayload c9Params c1Cookies "batch-id-A" none
        ⟨2026, 1, 30, 11, 18, 55, 469⟩ = .ok p ∧
      p.tripType = 2 ∧ p.realGrade = 1 ∧
      p.journeyInfoTypes =
        [⟨1, "2026-02-01", "JKT", "SIN", "", ""⟩,
         ⟨2, "2026-02-03", "SIN", "JKT", "", ""⟩] :=
  (c9_example_url_parse_and_legs c1Cookies _ rfl "batch-id-A"
    ⟨2026, 1, 30, 11, 18, 55, 469⟩).2.2.2.2.2.2.2

/-- C10: the builder `buildFlightSearchPayload` dereferences
`cookies._combined.transactionId` unconditionally, and the sort/refine flow
passes it the cookies extracted from the root visit without ever
synthesizing a `_combined` entry; so when the root response sets no
`_combined` cookie the builder throws a `TypeError` (instead of falling
back to a freshly generated transaction id) and the operation fails with a
500 before the `FlightListSearch` request is issued. -/
theorem c10_sort_flow_throws_without_combined (rootResp : RootResponse)
    (freshAbtestUserid : String) (params : FlightSearchParams)
    (fltBatchId productId sortType : String) (direction : Bool) (now : JsDate)
    (h : lookupAssoc rootResp.cookies "_combined" = none) :
    (getCookiesFromHostname rootResp freshAbtestUserid)._combined = none ∧
    runSortHandler rootResp freshAbtestUserid params fltBatchId productId
        sortType direction now
      = .failedBeforeSearch 500
          "TypeError: Cannot read properties of undefined (reading 'transactionId')" ∧
    (runSortHandler rootResp freshAbtestUserid params fltBatchId productId
        sortType direction now).searchWasIssued = false := by
  have hck : (getCookiesFromHostname rootResp freshAbtestUserid)._combined = none := by
    simp [getCookiesFromHostname, h]
  have hrun : runSortHandler rootResp freshAbtestUserid params fltBatchId productId
      sortType direction now
      = .failedBeforeSearch 500
          "TypeError: Cannot read properties of undefined (reading 'transactionId')" := by
    simp [runSortHandler, buildFlightSearchPayload, hck]
  exact ⟨hck, hrun, by rw [hrun]; rfl⟩

/-- Witness for C10: a root response carrying only a `GUID` cookie. -/
theorem c10_sort_flow_throws_without_combined_witness :
    lookupAssoc (RootResponse.cookies ⟨200, [("GUID", "g-1")], []⟩) "_combined" = none ∧
    (runSortHandler ⟨200, [("GUID", "g-1")], []⟩ "ab-1" c9Params "b-1" "pid-1"
        "Price" true ⟨2026, 1, 30, 11, 18, 55, 469⟩).searchWasIssued = false :=
  ⟨by decide,
   (c10_sort_flow_throws_without_combined ⟨200, [("GUID", "g-1")], []⟩ "ab-1"
     c9Params "b-1" "pid-1" "Price" true ⟨2026, 1, 30, 11, 18, 55, 469⟩
     (by decide)).2.2⟩

/-- C1 (code bug): the batch id is *not* shared.  The handler draws
`fltBatchId = generateUUID()` (line 2980) and places it in the search
payload's `Flt_BatchId` extension, but `buildUbtPayload` never receives it —
it draws its own `generateUUID()` (line 898) and embeds that value in every
telemetry body that carries a `Flt_BatchId`.  With an injected UUID source
whose successive draws differ (`batch-id-A`, then `batch-id-B`), the search
payload carries the first draw and the telemetry payload the second. -/
theorem c1_batch_id_not_shared_with_telemetry :
    (∃ p, c1Run.1 = .ok p ∧
      extensionValue p "Flt_BatchId" = some (some "batch-id-A")) ∧
    c1Run.2.fltBatchId = "batch-id-B" ∧
    (∀ e ∈ c1Run.2.ubtList,
      e.fltBatchIdRef = none ∨ e.fltBatchIdRef = some "batch-id-B") ∧
    (∃ e ∈ c1Run.2.ubtList, e.fltBatchIdRef = some "batch-id-B") ∧
    ("batch-id-A" : String) ≠ "batch-id-B" := by
  refine ⟨⟨_, rfl, by decide⟩, rfl, by decide, by decide, by decide⟩

end Dump

end TripScraper
